import Mathlib

/-
Verification of the cagecleaner hit-dereplication pipeline (main.py).

The pipeline reads a cblaster binary hit table and a summary file,
resolves each scaffold accession to a genome assembly accession through
the NCBI e-utilities, dereplicates the genomes through an external
helper script, and writes the surviving hits and their cluster labels
to two output files.

The embedding below follows main.py function by function.  External
effects are modelled explicitly:
- the stdout of the per-scaffold NCBI lookup is a function
  `resolve_one : String → String`;
- the external dereplication helper is a function from the content of
  `assemblies.txt` to the lines of `dereplicated_assemblies.txt`;
- the three files the pipeline appends to are carried in an `FS` record.

All definitions use structural recursion so that concrete runs evaluate
inside the kernel.
-/

namespace Cagecleaner

/-- Python `str.strip()`: remove leading and trailing whitespace. -/
def python_strip (s : String) : String :=
  String.mk (((s.data.dropWhile Char.isWhitespace).reverse.dropWhile Char.isWhitespace).reverse)

/-- Split a character list on a single separator character, Python
`str.split(sep)` semantics: `"".split(sep) = [""]`, empty fields kept. -/
def fields_split (sep : Char) : List Char → List (List Char)
  | [] => [[]]
  | c :: rest =>
    let r := fields_split sep rest
    if c = sep then [] :: r
    else (c :: r.headD []) :: r.tail

/-- Python `sep.join(parts)`. -/
def join_sep (sep : String) : List String → String
  | [] => ""
  | [x] => x
  | x :: y :: xs => x ++ sep ++ join_sep sep (y :: xs)

/-- One line of text per list element, each terminated by a newline, as
written by the output loops of `write_output`. -/
def joinLines : List String → String
  | [] => ""
  | l :: ls => l ++ "\n" ++ joinLines ls

/-- Whether `pat` occurs as a contiguous substring of `l`. -/
def contains_sub (pat : List Char) : List Char → Bool
  | [] => pat.isPrefixOf []
  | c :: rest => pat.isPrefixOf (c :: rest) || contains_sub pat rest

/-- Count of non-overlapping occurrences of `"Cluster"` in a character
list, scanning left to right: `re.findall("Cluster", content)` of
`validate_input_files` (line 65).  The first argument is recursion fuel,
instantiated with the length of the list. -/
def cluster_count_go : Nat → List Char → Nat
  | _, [] => 0
  | 0, _ => 0
  | f + 1, c :: rest =>
    if ("Cluster".data).isPrefixOf (c :: rest) then
      1 + cluster_count_go f (rest.drop 6)
    else
      cluster_count_go f rest

/-- Number of `"Cluster"` occurrences in the summary file content (the
file is modelled by its list of lines, joined with newlines). -/
def cluster_occurrences (summaryLines : List String) : Nat :=
  cluster_count_go (join_sep "\n" summaryLines).data.length (join_sep "\n" summaryLines).data

/-- A parsed csv table as `pl.read_csv` returns it: a header row of
column names and the data rows (`height` counts data rows only). -/
structure Table where
  columns : List String
  rows : List (List String)
deriving DecidableEq, Repr

def Table.height (t : Table) : Nat := t.rows.length

/-- The read `pl.read_csv` modelled for plain comma-separated content: the first
line holds the column names, every further line one data row. -/
def parse_csv (lines : List String) : Table :=
  { columns := (fields_split ',' (lines.headD "").data).map String.mk
    rows := lines.tail.map (fun l => (fields_split ',' l.data).map String.mk) }

/-- The five column names `validate_input_files` requires (line 49). -/
def required_columns : List String := ["Organism", "Scaffold", "Start", "End", "Score"]

/-- The content-level assertions of `validate_input_files` (lines 45-65)
in source order: more than 6 columns, the five required column names a
proper subset of the column set, more than 3 data rows, and as many
`"Cluster"` occurrences in the summary as there are data rows.  The
filesystem checks (existence, `.csv` suffix) are outside the model; a
failed `assert` is an `Except.error` carrying a tag for its message. -/
def validate_input_files (data : Table) (summaryLines : List String) : Except String Bool :=
  if data.columns.length > 6 then
    if (∀ c ∈ required_columns, c ∈ data.columns) ∧
        ∃ c ∈ data.columns, c ∉ required_columns then
      if data.height > 3 then
        if cluster_occurrences summaryLines = data.height then .ok true
        else .error "summary mismatch"
      else .error "row count"
    else .error "column names"
  else .error "column count"

/-- The extractor `get_scaffolds` (line 128): `to_series(1)` selects the SECOND column
by position, whatever its name. -/
def get_scaffolds (data : Table) : List String :=
  data.rows.map (fun r => r.getD 1 "")

/-- Python `list.index`: the index of the first occurrence of `a`, or
the length of the list when `a` is absent (where `list.index` raises
`ValueError`). -/
def index_of_value (a : String) : List String → Nat
  | [] => 0
  | v :: vs => if v = a then 0 else index_of_value a vs + 1

/-- Modelled from the spec's words, for comparison with `get_scaffolds`:
the values of the column named "Scaffold", selected by name. -/
def scaffold_column_by_name (data : Table) : List String :=
  data.rows.map (fun r => r.getD (index_of_value "Scaffold" data.columns) "")

example : python_strip "  GCF_1.1\n" = "GCF_1.1" := by decide
example : fields_split ',' "a,b".data = ["a".data, "b".data] := by decide
example : cluster_occurrences ["S1", "---", "Cluster 1", "S2", "---", "Cluster 2"] = 2 := by decide
example : get_scaffolds (parse_csv ["A,B,C", "1,2,3", "4,5,6"]) = ["2", "5"] := by decide

/-- The validity check `get_assemblies` applies to the stdout of the
external NCBI lookup for one scaffold (lines 170-180): strip the output;
if it starts with `"GC"` it is the resolved assembly accession, anything
else is a per-scaffold resolution failure (logged and skipped).
`resolve_one` models the stdout of the e-utilities subprocess. -/
def resolved_assembly (resolve_one : String → String) (s : String) : Option String :=
  let out := python_strip (resolve_one s)
  if ("GC".data).isPrefixOf out.data then some out else none

/-- Loop of `get_assemblies` (lines 159-187): iterate over the scaffolds
in order, keeping the insertion-ordered dict `result` as an association
list of (scaffold, assembly) pairs together with the duplicate counter.
A resolved assembly already present among the recorded values bumps the
counter and the scaffold is skipped; an unresolved scaffold is skipped;
otherwise the pair is appended. -/
def get_assemblies_go (resolve_one : String → String) :
    List String → List (String × String) → Nat → List (String × String) × Nat
  | [], acc, counter => (acc, counter)
  | s :: rest, acc, counter =>
    match resolved_assembly resolve_one s with
    | some a =>
      if a ∈ acc.map Prod.snd then
        get_assemblies_go resolve_one rest acc (counter + 1)
      else
        get_assemblies_go resolve_one rest (acc ++ [(s, a)]) counter
    | none => get_assemblies_go resolve_one rest acc counter

/-- The resolver `get_assemblies` (lines 136-200): the scaffold-to-assembly map (as
an insertion-ordered association list) and the duplicate counter.  The
function always returns; there is no emptiness check on the result. -/
def get_assemblies (scaffolds : List String) (resolve_one : String → String) :
    List (String × String) × Nat :=
  get_assemblies_go resolve_one scaffolds [] 0

/-- The two possible ends of `dereplicate_genomes`: the initial `assert`
on the cutoff fails, or the helper script (the external dereplication
service) is invoked. -/
inductive DerepOutcome
  | assertionFailed
  | serviceInvoked
deriving DecidableEq, Repr

/-- Contents of the three files the pipeline appends to (each opened in
`'a'` mode by main.py): `assemblies.txt`, `cleaned_binary.csv` and
`clusters.txt`. -/
structure FS where
  assembliesTxt : String
  cleanedBinary : String
  clustersTxt : String
deriving DecidableEq, Repr

/-- The empty initial state of the three output files. -/
def FS0 : FS := ⟨"", "", ""⟩

/-- Batch loop of `dereplicate_genomes` (lines 227-236): the assembly
ids are written space-separated in batches of 300, one batch per line.
The first argument is recursion fuel, instantiated with the length of
the list. -/
def batch_lines_go : Nat → List String → List String
  | _, [] => []
  | 0, _ => []
  | f + 1, a :: rest =>
    join_sep " " ((a :: rest).take 300) :: batch_lines_go f ((a :: rest).drop 300)

/-- The lines appended to `assemblies.txt` by `dereplicate_genomes`. -/
def batch_lines (assemblies : List String) : List String :=
  batch_lines_go assemblies.length assemblies

/-- The stage `dereplicate_genomes` (lines 203-253): assert the percent-identity
cutoff lies in (0, 100], append the assembly ids to `assemblies.txt` in
batches of 300, then run the helper script.  There is no emptiness check
on `assemblies`: an empty list writes no batch lines and the helper is
still invoked. -/
def dereplicate_genomes (assemblies : List String) (pi_cutoff : ℚ) (fs : FS) :
    FS × DerepOutcome :=
  if 0 < pi_cutoff ∧ pi_cutoff ≤ 100 then
    ({ fs with assembliesTxt := fs.assembliesTxt ++ joinLines (batch_lines assemblies) },
     .serviceInvoked)
  else
    (fs, .assertionFailed)

example : resolved_assembly (fun _ => "GCF_000001.1\n") "S1" = some "GCF_000001.1" := by decide
example : resolved_assembly (fun _ => "HTTP error 400") "S1" = none := by decide
example :
    get_assemblies ["S1", "S2", "S3"]
      (fun s => if s = "S1" then "GCA_1" else if s = "S2" then "bad" else "GCA_1") =
    ([("S1", "GCA_1")], 1) := by decide
example : dereplicate_genomes ["A", "B"] 99 FS0 = (⟨"A B\n", "", ""⟩, .serviceInvoked) := by decide
example : dereplicate_genomes [] 0 FS0 = (FS0, .assertionFailed) := by decide

/-- The expression `"_".join(line.split("_", 2)[:2])` of `get_dereplicated_scaffolds`
(line 279): the part of a genome file name before its second underscore
(the whole name if it has fewer than two underscores). -/
def assembly_accession_of (line : String) : String :=
  match fields_split '_' line.data with
  | a :: b :: _ => String.mk a ++ "_" ++ String.mk b
  | [a] => String.mk a
  | [] => ""

/-- The assembly accession looked up in the map values on line 283:
the underscore truncation followed by `.strip()`. -/
def parse_assembly (line : String) : String :=
  python_strip (assembly_accession_of line)

/-- The function `get_dereplicated_scaffolds` (lines 256-287), the reconciliation
loop, with the `dereplicated_assemblies.txt` file modelled by its list
of lines.  For every line, in file order: recover the assembly
accession, find its index among the dict values and take the key at
that index (`list(keys)[list(values).index(assembly)]`, line 283).  A
missing assembly raises `ValueError`, modelled as `none`.  No sorting
of any kind is applied to the result. -/
def get_dereplicated_scaffolds (pairs : List (String × String)) :
    List String → Option (List String)
  | [] => some []
  | line :: rest =>
    if index_of_value (parse_assembly line) (pairs.map Prod.snd) < pairs.length then
      (get_dereplicated_scaffolds pairs rest).map
        (fun ds =>
          (pairs.getD (index_of_value (parse_assembly line) (pairs.map Prod.snd)) ("", "")).1 :: ds)
    else
      none

/-- First line of the binary file content containing `scaffold` as a
substring: the match of `re.search(f".*scaffold.*", file_content)` on
lines 315-317 — with the greedy leading and trailing `.*` (which do not
cross newlines) the match is the whole first line containing the
scaffold.  Exact for scaffold ids free of regex metacharacters. -/
def findHit (binaryLines : List String) (scaffold : String) : Option String :=
  binaryLines.find? (fun l => contains_sub scaffold.data l.data)

/-- Whether a line consists only of `-` characters (the `[-]*` line of
the summary pattern; zero dashes allowed). -/
def dash_line (l : String) : Bool :=
  l.data.all (fun c => c = '-')

/-- The digits at the front of a character list (`\d*`, greedy,
possibly empty). -/
def digit_run (l : List Char) : List Char :=
  l.takeWhile Char.isDigit

/-- Group 2 of `re.search(f"(scaffold\n[-]*\n)(Cluster \d*)", content)`
on lines 343-346, with the summary file modelled by its list of lines:
scan for the first line ending in `scaffold` that is followed by a line
of only dashes and then a line starting with `"Cluster "`; the result is
`"Cluster "` plus the digits that follow. -/
def findCluster (scaffold : String) : List String → Option String
  | l1 :: l2 :: l3 :: rest =>
    if (scaffold.data.isSuffixOf l1.data && dash_line l2) &&
        ("Cluster ".data).isPrefixOf l3.data then
      some ("Cluster " ++ String.mk (digit_run (l3.data.drop 8)))
    else
      findCluster scaffold (l2 :: l3 :: rest)
  | _ => none

/-- The two `re.search(...).group(...)` loops of `write_output`: one
match per dereplicated scaffold, collected in order; a failed search
returns `None` and the subsequent `.group` call raises, aborting the
run (modelled as `none`). -/
def collectMatches (f : String → Option String) : List String → Option (List String)
  | [] => some []
  | s :: rest =>
    match f s with
    | none => none
    | some h => (collectMatches f rest).map (fun hs => h :: hs)

/-- The fatal errors of the pipeline stages after validation. -/
inductive PipeErr
  | assertionFailed (msg : String)
  | valueError
  | hitMatchFailed
  | clusterMatchFailed
deriving DecidableEq, Repr

/-- The stage `write_output` (lines 290-353): collect the matching binary line for
every dereplicated scaffold, append the header and those lines to
`cleaned_binary.csv` (opened in `'a'` mode), then collect the cluster
label for every dereplicated scaffold and append the labels to
`clusters.txt` (also `'a'` mode).  The hit matches are collected before
the cleaned file is opened; the cluster matches are collected only after
the cleaned file has been completely written. -/
def write_output (dereplicated_scaffolds : List String)
    (summaryLines binaryLines : List String) (fs : FS) : FS × Option PipeErr :=
  match collectMatches (findHit binaryLines) dereplicated_scaffolds with
  | none => (fs, some .hitMatchFailed)
  | some cleaned_hits =>
    let fs1 := { fs with
      cleanedBinary := fs.cleanedBinary ++ (binaryLines.headD "" ++ "\n") ++ joinLines cleaned_hits }
    match collectMatches (fun s => findCluster s summaryLines) dereplicated_scaffolds with
    | none => (fs1, some .clusterMatchFailed)
    | some clusters =>
      ({ fs1 with clustersTxt := fs1.clustersTxt ++ joinLines clusters }, none)

/-- The driver `main` (lines 356-397) after argument parsing: validate the inputs,
extract the scaffolds, resolve the assemblies, download and dereplicate
through the external helper (modelled as the deterministic response
`derep_service` from the content of `assemblies.txt` to the lines of
`dereplicated_assemblies.txt`), reconcile and write the outputs.  The
binary and summary files are modelled by their lists of lines. -/
def run_pipeline (binaryLines summaryLines : List String)
    (resolve_one : String → String) (derep_service : String → List String)
    (pi_cutoff : ℚ) (fs : FS) : FS × Option PipeErr :=
  match validate_input_files (parse_csv binaryLines) summaryLines with
  | .error m => (fs, some (.assertionFailed m))
  | .ok _ =>
    let pairs := (get_assemblies (get_scaffolds (parse_csv binaryLines)) resolve_one).1
    match dereplicate_genomes (pairs.map Prod.snd) pi_cutoff fs with
    | (fs1, .assertionFailed) => (fs1, some (.assertionFailed "pi cutoff"))
    | (fs1, .serviceInvoked) =>
      match get_dereplicated_scaffolds pairs (derep_service fs1.assembliesTxt) with
      | none => (fs1, some .valueError)
      | some ds => write_output ds summaryLines binaryLines fs1

example : parse_assembly "GCF_000000002.1_ASM2.fna" = "GCF_000000002.1" := by decide
example : parse_assembly "GCF_0001.1\n" = "GCF_0001.1" := by decide
example :
    get_dereplicated_scaffolds [("S1", "A_1"), ("S2", "A_2")] ["A_2_x.fna", "A_1_y.fna"] =
      some ["S2", "S1"] := by decide
example : findHit ["Organism,Scaffold", "orgA,S1,1"] "S1" = some "orgA,S1,1" := by decide
example : findCluster "S1" ["S1", "-----", "Cluster 12"] = some "Cluster 12" := by decide
example : findCluster "S2" ["S1", "-----", "Cluster 12"] = none := by decide

/-- A concrete binary hit table: 7 columns, the required names present,
4 data rows holding scaffolds S1..S4 in the second column. -/
def run2_binary : List String :=
  ["Organism,Scaffold,Start,End,Score,Col6,Col7",
   "orgA,S1,1,2,3,a,b",
   "orgB,S2,1,2,3,a,b",
   "orgC,S3,1,2,3,a,b",
   "orgD,S4,1,2,3,a,b"]

/-- The matching summary file: one block per hit, 4 cluster labels. -/
def run2_summary : List String :=
  ["S1", "-------", "Cluster 1",
   "S2", "-------", "Cluster 2",
   "S3", "-------", "Cluster 3",
   "S4", "-------", "Cluster 4"]

/-- A deterministic response of the NCBI lookup: each scaffold resolves
to its own assembly accession. -/
def run2_resolve : String → String := fun s =>
  if s = "S1" then "GCF_000000001.1" else
  if s = "S2" then "GCF_000000002.1" else
  if s = "S3" then "GCF_000000003.1" else
  if s = "S4" then "GCF_000000004.1" else ""

/-- A deterministic response of the dereplication service keeping all
four genomes, listed in the order they were submitted. -/
def run2_derep : String → List String := fun _ =>
  ["GCF_000000001.1_g1.fna", "GCF_000000002.1_g2.fna",
   "GCF_000000003.1_g3.fna", "GCF_000000004.1_g4.fna"]

example : (run_pipeline run2_binary run2_summary run2_resolve run2_derep 99 FS0).2 = none := by
  decide
example :
    (run_pipeline run2_binary run2_summary run2_resolve run2_derep 99 FS0).1.clustersTxt =
      "Cluster 1\nCluster 2\nCluster 3\nCluster 4\n" := by decide

/-- When every remaining scaffold fails the validity check, the
resolution loop leaves the accumulator and counter untouched. -/
theorem get_assemblies_go_all_unresolved (resolve_one : String → String)
    (l : List String) (acc : List (String × String)) (c : Nat)
    (h : ∀ s ∈ l, resolved_assembly resolve_one s = none) :
    get_assemblies_go resolve_one l acc c = (acc, c) := by
  induction l generalizing acc c with
  | nil => rfl
  | cons s rest ih =>
    have hs : resolved_assembly resolve_one s = none := h s (by simp)
    simp only [get_assemblies_go, hs]
    exact ih acc c (fun x hx => h x (List.mem_cons_of_mem s hx))

/-- C6 (amended): resolving zero scaffolds successfully is NOT fatal:
`get_assemblies` has no emptiness check, returns the empty map with a
zero duplicate counter, and the run continues; per-scaffold resolution
failures are logged, skipped and never abort the stage. -/
theorem get_assemblies_all_unresolved_empty (scaffolds : List String)
    (resolve_one : String → String)
    (h : ∀ s ∈ scaffolds, resolved_assembly resolve_one s = none) :
    get_assemblies scaffolds resolve_one = ([], 0) :=
  get_assemblies_go_all_unresolved resolve_one scaffolds [] 0 h

/-- Witness for `get_assemblies_all_unresolved_empty` at a concrete
lookup response with no valid assembly accession. -/
theorem get_assemblies_all_unresolved_empty_witness :
    get_assemblies ["SCAFX"] (fun _ => "no result") = ([], 0) :=
  get_assemblies_all_unresolved_empty ["SCAFX"] (fun _ => "no result") (by decide)

/-- C6 (counterexample): a run in which no scaffold resolves
successfully returns the empty map normally — the stage does not fail
with any error, contradicting the claimed fatal
`NoAssembliesResolvedError`. -/
theorem zero_resolved_returns_empty_map_counterexample :
    get_assemblies ["SCAF1", "SCAF2"] (fun _ => "HTTP error 400: bad request") = ([], 0) := by
  decide

/-- Membership in the map built by the resolution loop, relative to an
accumulator whose pairs agree with the lookup: a pair survives exactly
when it was already accumulated, or its assembly is new and its scaffold
is the first of the remaining input to resolve to that assembly. -/
theorem get_assemblies_go_mem (resolve_one : String → String) (l : List String)
    (acc : List (String × String)) (c : Nat) (s a : String)
    (hacc : ∀ p ∈ acc, resolved_assembly resolve_one p.1 = some p.2) :
    ((s, a) ∈ (get_assemblies_go resolve_one l acc c).1 ↔
      (s, a) ∈ acc ∨
        (a ∉ acc.map Prod.snd ∧
          l.find? (fun x => resolved_assembly resolve_one x == some a) = some s)) := by
  induction l generalizing acc c with
  | nil => simp [get_assemblies_go]
  | cons x rest ih =>
    cases hx : resolved_assembly resolve_one x with
    | none =>
      rw [List.find?_cons_of_neg _ (by simp [hx])]
      simp only [get_assemblies_go, hx]
      exact ih acc c hacc
    | some b =>
      by_cases hba : b = a
      · subst hba
        rw [List.find?_cons_of_pos _ (by simp [hx])]
        by_cases hmem : b ∈ acc.map Prod.snd
        · simp only [get_assemblies_go, hx, if_pos hmem]
          rw [ih acc (c + 1) hacc]
          constructor
          · rintro (h | ⟨hnot, -⟩)
            · exact Or.inl h
            · exact absurd hmem hnot
          · rintro (h | ⟨hnot, -⟩)
            · exact Or.inl h
            · exact absurd hmem hnot
        · simp only [get_assemblies_go, hx, if_neg hmem]
          rw [ih (acc ++ [(x, b)]) c ?_]
          · constructor
            · rintro (hmem' | ⟨hnot, -⟩)
              · rcases List.mem_append.1 hmem' with h' | h'
                · exact Or.inl h'
                · simp only [List.mem_singleton, Prod.mk.injEq] at h'
                  exact Or.inr ⟨hmem, by rw [h'.1]⟩
              · exact absurd (by simp) hnot
            · rintro (h' | ⟨-, hsx⟩)
              · exact Or.inl (List.mem_append_left _ h')
              · have hxs : x = s := by simpa using hsx
                exact Or.inl (List.mem_append.2 (Or.inr (by simp [hxs])))
          · intro p hp
            rcases List.mem_append.1 hp with h' | h'
            · exact hacc p h'
            · simp only [List.mem_singleton] at h'
              rw [h']
              exact hx
      · rw [List.find?_cons_of_neg _ (by simp [hx, hba])]
        by_cases hmem : b ∈ acc.map Prod.snd
        · simp only [get_assemblies_go, hx, if_pos hmem]
          exact ih acc (c + 1) hacc
        · simp only [get_assemblies_go, hx, if_neg hmem]
          rw [ih (acc ++ [(x, b)]) c ?_]
          · constructor
            · rintro (h' | ⟨hnot, hfind⟩)
              · rcases List.mem_append.1 h' with h'' | h''
                · exact Or.inl h''
                · simp only [List.mem_singleton, Prod.mk.injEq] at h''
                  exact absurd h''.2.symm hba
              · refine Or.inr ⟨fun hin => hnot ?_, hfind⟩
                simp only [List.map_append, List.mem_append]
                exact Or.inl hin
            · rintro (h' | ⟨hnot, hfind⟩)
              · exact Or.inl (List.mem_append_left _ h')
              · refine Or.inr ⟨?_, hfind⟩
                simp only [List.map_append, List.mem_append, List.map_cons, List.map_nil,
                  List.mem_singleton, not_or]
                exact ⟨hnot, fun h'' => hba h''.symm⟩
          · intro p hp
            rcases List.mem_append.1 hp with h' | h'
            · exact hacc p h'
            · simp only [List.mem_singleton] at h'
              rw [h']
              exact hx

/-- Every successful resolution either appends one pair to the map or
bumps the duplicate counter by one. -/
theorem get_assemblies_go_counter (resolve_one : String → String) (l : List String)
    (acc : List (String × String)) (c : Nat) :
    (get_assemblies_go resolve_one l acc c).2 +
        (get_assemblies_go resolve_one l acc c).1.length =
      c + acc.length + (l.filterMap (resolved_assembly resolve_one)).length := by
  induction l generalizing acc c with
  | nil => simp [get_assemblies_go]
  | cons x rest ih =>
    cases hx : resolved_assembly resolve_one x with
    | none =>
      simp only [get_assemblies_go, hx, List.filterMap_cons_none hx]
      exact ih acc c
    | some b =>
      by_cases hmem : b ∈ acc.map Prod.snd
      · simp only [get_assemblies_go, hx, if_pos hmem, List.filterMap_cons_some hx]
        rw [ih acc (c + 1)]
        simp only [List.length_cons]
        omega
      · simp only [get_assemblies_go, hx, if_neg hmem, List.filterMap_cons_some hx]
        rw [ih (acc ++ [(x, b)]) c]
        simp only [List.length_append, List.length_cons, List.length_nil]
        omega

/-- C3: first-seen-wins duplicate policy of the resolution stage: a
pair (scaffold, assembly) is in the scaffold-to-assembly map exactly
when that scaffold is the FIRST of the input sequence (in input order)
that resolves to that assembly, so a scaffold resolving to an assembly
already recorded among the map values is never added and is excluded
from all downstream stages; instead such scaffolds feed the duplicate
counter: counter plus retained pairs equals the number of successful
resolutions. -/
theorem mem_get_assemblies_iff_first_resolver (scaffolds : List String)
    (resolve_one : String → String) :
    (∀ s a : String,
      (s, a) ∈ (get_assemblies scaffolds resolve_one).1 ↔
        scaffolds.find? (fun x => resolved_assembly resolve_one x == some a) = some s) ∧
    (get_assemblies scaffolds resolve_one).2 +
        (get_assemblies scaffolds resolve_one).1.length =
      (scaffolds.filterMap (resolved_assembly resolve_one)).length := by
  constructor
  · intro s a
    have h := get_assemblies_go_mem resolve_one scaffolds [] 0 s a (by simp)
    simpa [get_assemblies] using h
  · have h := get_assemblies_go_counter resolve_one scaffolds [] 0
    simpa [get_assemblies] using h

/-- The resolution loop preserves distinctness of the accumulated keys
and values, given that accumulated pairs agree with the lookup. -/
theorem get_assemblies_go_nodup (resolve_one : String → String) (l : List String)
    (acc : List (String × String)) (c : Nat)
    (hacc : ∀ p ∈ acc, resolved_assembly resolve_one p.1 = some p.2)
    (hk : (acc.map Prod.fst).Nodup) (hv : (acc.map Prod.snd).Nodup) :
    ((get_assemblies_go resolve_one l acc c).1.map Prod.fst).Nodup ∧
    ((get_assemblies_go resolve_one l acc c).1.map Prod.snd).Nodup := by
  induction l generalizing acc c with
  | nil => exact ⟨hk, hv⟩
  | cons x rest ih =>
    cases hx : resolved_assembly resolve_one x with
    | none =>
      simp only [get_assemblies_go, hx]
      exact ih acc c hacc hk hv
    | some b =>
      by_cases hmem : b ∈ acc.map Prod.snd
      · simp only [get_assemblies_go, hx, if_pos hmem]
        exact ih acc (c + 1) hacc hk hv
      · simp only [get_assemblies_go, hx, if_neg hmem]
        apply ih
        · intro p hp
          rcases List.mem_append.1 hp with h' | h'
          · exact hacc p h'
          · simp only [List.mem_singleton] at h'
            rw [h']
            exact hx
        · have hxk : x ∉ acc.map Prod.fst := by
            intro hxin
            rcases List.mem_map.1 hxin with ⟨p, hp, hpx⟩
            have hres := hacc p hp
            rw [hpx, hx] at hres
            exact hmem (List.mem_map.2 ⟨p, hp, (Option.some.injEq _ _ ▸ hres : b = p.2).symm⟩)
          simp [List.nodup_append, hk, hxk]
        · simp [List.nodup_append, hv, hmem]

/-- C7: the realized scaffold-to-assembly map is injective in both
directions: its keys are pairwise distinct scaffolds, its values are
pairwise distinct assembly accessions, and the inverse assembly-to-
scaffold mapping is total and well defined over the map's value set
(every recorded assembly has exactly one originating scaffold). -/
theorem get_assemblies_injective_both_directions (scaffolds : List String)
    (resolve_one : String → String) :
    ((get_assemblies scaffolds resolve_one).1.map Prod.fst).Nodup ∧
    ((get_assemblies scaffolds resolve_one).1.map Prod.snd).Nodup ∧
    ∀ a ∈ (get_assemblies scaffolds resolve_one).1.map Prod.snd,
      ∃! s, (s, a) ∈ (get_assemblies scaffolds resolve_one).1 := by
  obtain ⟨hk, hv⟩ :=
    get_assemblies_go_nodup resolve_one scaffolds [] 0 (by simp) (by simp) (by simp)
  refine ⟨hk, hv, ?_⟩
  intro a ha
  obtain ⟨p, hp, hpa⟩ := List.mem_map.1 ha
  refine ⟨p.1, ?_, ?_⟩
  · show (p.1, a) ∈ (get_assemblies scaffolds resolve_one).1
    rw [← hpa, Prod.mk.eta]
    exact hp
  · intro s' hs'
    have heq : (s', a) = p := List.inj_on_of_nodup_map hv hs' hp (by simp [hpa])
    exact congrArg Prod.fst heq

/-- The lookup `list(keys)[list(values).index(a)]` (line 283) recovers the first
pair whose value is `a`: when the index is in range, the indexed pair is
exactly what `find?` by value returns, and its value is `a`. -/
theorem index_of_value_spec (a : String) (pairs : List (String × String))
    (h : index_of_value a (pairs.map Prod.snd) < pairs.length) :
    pairs.find? (fun p => p.2 == a) =
      some (pairs.getD (index_of_value a (pairs.map Prod.snd)) ("", "")) ∧
    (pairs.getD (index_of_value a (pairs.map Prod.snd)) ("", "")).2 = a := by
  induction pairs with
  | nil => simp [index_of_value] at h
  | cons p rest ih =>
    simp only [List.map_cons, index_of_value] at h ⊢
    by_cases hpa : p.2 = a
    · rw [if_pos hpa]
      simp only [List.getD_cons_zero]
      exact ⟨List.find?_cons_of_pos _ (by simp [hpa]), hpa⟩
    · rw [if_neg hpa] at h ⊢
      simp only [List.getD_cons_succ]
      have h' : index_of_value a (rest.map Prod.snd) < rest.length := by
        simp only [List.length_cons] at h
        omega
      refine ⟨?_, (ih h').2⟩
      rw [List.find?_cons_of_neg _ (by simp [hpa])]
      exact (ih h').1

/-- C1 (amended): when reconciliation succeeds, the surviving scaffold
sequence has exactly one entry per line of the dereplicated-assemblies
file, IN FILE ORDER (the order the dereplication service returned the
representatives), each entry being the first-seen scaffold recorded for
that line's assembly; no re-sorting by original input position takes
place. -/
theorem get_dereplicated_scaffolds_follows_file_order
    (pairs : List (String × String)) (lines ds : List String)
    (h : get_dereplicated_scaffolds pairs lines = some ds) :
    ds.length = lines.length ∧
    List.Forall₂ (fun line s =>
      pairs.find? (fun p => p.2 == parse_assembly line) = some (s, parse_assembly line))
      lines ds := by
  induction lines generalizing ds with
  | nil =>
    simp only [get_dereplicated_scaffolds, Option.some.injEq] at h
    subst h
    exact ⟨rfl, List.Forall₂.nil⟩
  | cons line rest ih =>
    simp only [get_dereplicated_scaffolds] at h
    split at h
    · rename_i hlt
      obtain ⟨ds', hds', rfl⟩ := Option.map_eq_some'.mp h
      obtain ⟨hlen, hforall⟩ := ih ds' hds'
      obtain ⟨hfind, hsnd⟩ := index_of_value_spec (parse_assembly line) pairs hlt
      refine ⟨by simp [hlen], List.Forall₂.cons ?_ hforall⟩
      rw [hfind]
      exact congrArg some (Prod.ext rfl hsnd)
    · exact absurd h (by simp)

/-- A deterministic lookup response used in the reconciliation
examples: S1 and S2 resolve to distinct assemblies, nothing fails and
nothing is duplicated. -/
def c1_resolve : String → String := fun s =>
  if s = "S1" then "GCF_000000101.1" else if s = "S2" then "GCF_000000102.1" else ""

/-- The scaffold-to-assembly map produced for S1, S2 under
`c1_resolve`. -/
def c1_pairs : List (String × String) := (get_assemblies ["S1", "S2"] c1_resolve).1

/-- A dereplicated-assemblies file listing both representatives in the
REVERSE of input order. -/
def c1_lines : List String := ["GCF_000000102.1_b.fna", "GCF_000000101.1_a.fna"]

/-- Witness for `get_dereplicated_scaffolds_follows_file_order` at the
concrete two-scaffold run. -/
theorem get_dereplicated_scaffolds_follows_file_order_witness :
    (["S2", "S1"] : List String).length = c1_lines.length ∧
    List.Forall₂ (fun line s =>
      c1_pairs.find? (fun p => p.2 == parse_assembly line) = some (s, parse_assembly line))
      c1_lines ["S2", "S1"] :=
  get_dereplicated_scaffolds_follows_file_order c1_pairs c1_lines ["S2", "S1"] (by decide)

/-- A dereplication-service response keeping all four genomes, listed
in the REVERSE of the order they were submitted. -/
def c1_derep : String → List String := fun _ =>
  ["GCF_000000004.1_g4.fna", "GCF_000000003.1_g3.fna",
   "GCF_000000002.1_g2.fna", "GCF_000000001.1_g1.fna"]

/-- C1 (counterexample): a successful run with a non-empty scaffold
sequence, no resolution failures and no duplicate assemblies, whose
surviving (hit, cluster-label) pairs are written in the order the
representatives were returned by the dereplication service, NOT in the
order the scaffolds appeared in the input hit table: the output files
hold S4, S3, S2, S1 while the claimed input-order output would hold
S1, S2, S3, S4. -/
theorem reconcile_order_counterexample :
    (run_pipeline run2_binary run2_summary run2_resolve c1_derep 99 FS0).2 = none ∧
    (run_pipeline run2_binary run2_summary run2_resolve c1_derep 99 FS0).1.cleanedBinary =
      "Organism,Scaffold,Start,End,Score,Col6,Col7\n" ++
        "orgD,S4,1,2,3,a,b\norgC,S3,1,2,3,a,b\norgB,S2,1,2,3,a,b\norgA,S1,1,2,3,a,b\n" ∧
    (run_pipeline run2_binary run2_summary run2_resolve c1_derep 99 FS0).1.clustersTxt =
      "Cluster 4\nCluster 3\nCluster 2\nCluster 1\n" ∧
    ¬ ((run_pipeline run2_binary run2_summary run2_resolve c1_derep 99 FS0).1.cleanedBinary =
      "Organism,Scaffold,Start,End,Score,Col6,Col7\n" ++
        "orgA,S1,1,2,3,a,b\norgB,S2,1,2,3,a,b\norgC,S3,1,2,3,a,b\norgD,S4,1,2,3,a,b\n") := by
  decide

set_option maxRecDepth 10000 in
/-- C2 (code bug): with identical inputs and a deterministic
dereplication response, a second run does NOT reproduce the first run's
output files byte for byte: every output file is opened in append mode
(`'a'`), so after the second run each output file holds two copies of
the content a single run produces. -/
theorem second_run_appends_output :
    (run_pipeline run2_binary run2_summary run2_resolve run2_derep 99 FS0).2 = none ∧
    (run_pipeline run2_binary run2_summary run2_resolve run2_derep 99
        (run_pipeline run2_binary run2_summary run2_resolve run2_derep 99 FS0).1).2 = none ∧
    (run_pipeline run2_binary run2_summary run2_resolve run2_derep 99 FS0).1.cleanedBinary ≠ "" ∧
    (run_pipeline run2_binary run2_summary run2_resolve run2_derep 99
          (run_pipeline run2_binary run2_summary run2_resolve run2_derep 99 FS0).1).1.cleanedBinary =
      (run_pipeline run2_binary run2_summary run2_resolve run2_derep 99 FS0).1.cleanedBinary ++
        (run_pipeline run2_binary run2_summary run2_resolve run2_derep 99 FS0).1.cleanedBinary ∧
    (run_pipeline run2_binary run2_summary run2_resolve run2_derep 99
          (run_pipeline run2_binary run2_summary run2_resolve run2_derep 99 FS0).1).1.clustersTxt =
      (run_pipeline run2_binary run2_summary run2_resolve run2_derep 99 FS0).1.clustersTxt ++
        (run_pipeline run2_binary run2_summary run2_resolve run2_derep 99 FS0).1.clustersTxt ∧
    (run_pipeline run2_binary run2_summary run2_resolve run2_derep 99
          (run_pipeline run2_binary run2_summary run2_resolve run2_derep 99 FS0).1).1.cleanedBinary ≠
      (run_pipeline run2_binary run2_summary run2_resolve run2_derep 99 FS0).1.cleanedBinary := by
  decide

/-- A successful `re.search` collection yields one match per scanned
scaffold. -/
theorem collectMatches_length (f : String → Option String) (l l' : List String)
    (h : collectMatches f l = some l') : l'.length = l.length := by
  induction l generalizing l' with
  | nil =>
    simp only [collectMatches, Option.some.injEq] at h
    rw [← h]
  | cons s rest ih =>
    simp only [collectMatches] at h
    cases hf : f s with
    | none => rw [hf] at h; exact absurd h (by simp)
    | some x =>
      rw [hf] at h
      obtain ⟨l'', hl'', rfl⟩ := Option.map_eq_some'.mp h
      simp [ih l'' hl'']

/-- C4: on every successful run of the output stage the number of hit
rows appended to the cleaned hit table equals the number of cluster
labels appended to the cluster list — one label per retained hit, both
collected in the same scaffold order. -/
theorem write_output_row_count_eq_label_count
    (ds summaryLines binaryLines : List String) (fs fs' : FS)
    (h : write_output ds summaryLines binaryLines fs = (fs', none)) :
    ∃ hits clusters : List String,
      collectMatches (findHit binaryLines) ds = some hits ∧
      collectMatches (fun s => findCluster s summaryLines) ds = some clusters ∧
      hits.length = clusters.length ∧ hits.length = ds.length ∧
      fs'.cleanedBinary =
        fs.cleanedBinary ++ (binaryLines.headD "" ++ "\n") ++ joinLines hits ∧
      fs'.clustersTxt = fs.clustersTxt ++ joinLines clusters := by
  cases h1 : collectMatches (findHit binaryLines) ds with
  | none =>
    simp only [write_output, h1] at h
    exact absurd (congrArg Prod.snd h) (by simp)
  | some hits =>
    cases h2 : collectMatches (fun s => findCluster s summaryLines) ds with
    | none =>
      simp only [write_output, h1, h2] at h
      exact absurd (congrArg Prod.snd h) (by simp)
    | some clusters =>
      simp only [write_output, h1, h2] at h
      rw [Prod.mk.injEq] at h
      obtain ⟨hfs, -⟩ := h
      refine ⟨hits, clusters, rfl, rfl, ?_, collectMatches_length _ _ _ h1, ?_, ?_⟩
      · rw [collectMatches_length _ _ _ h1, collectMatches_length _ _ _ h2]
      · rw [← hfs]
      · rw [← hfs]

/-- Witness for `write_output_row_count_eq_label_count` at a concrete
one-scaffold run. -/
theorem write_output_row_count_eq_label_count_witness :
    ∃ hits clusters : List String,
      collectMatches (findHit ["Head,Row", "data SC77 x"]) ["SC77"] = some hits ∧
      collectMatches (fun s => findCluster s ["SC77", "---", "Cluster 9"]) ["SC77"] =
        some clusters ∧
      hits.length = clusters.length ∧ hits.length = (["SC77"] : List String).length ∧
      (⟨"", "Head,Row\ndata SC77 x\n", "Cluster 9\n"⟩ : FS).cleanedBinary =
        FS0.cleanedBinary ++ ((["Head,Row", "data SC77 x"] : List String).headD "" ++ "\n") ++
          joinLines hits ∧
      (⟨"", "Head,Row\ndata SC77 x\n", "Cluster 9\n"⟩ : FS).clustersTxt =
        FS0.clustersTxt ++ joinLines clusters :=
  write_output_row_count_eq_label_count ["SC77"] ["SC77", "---", "Cluster 9"]
    ["Head,Row", "data SC77 x"] FS0 ⟨"", "Head,Row\ndata SC77 x\n", "Cluster 9\n"⟩ (by decide)

/-- C9 (amended): on every fatal path of the output stage the cluster
list file is never touched, and the cleaned hit table is either
untouched (hit-match failure) or already COMPLETELY written
(cluster-match failure): a failure between the two writes leaves the
cleaned hit table written while the cluster list is not, so the two
files are not written-or-unwritten together; neither file is ever left
partially written. -/
theorem write_output_fatal_path_file_state
    (ds summaryLines binaryLines : List String) (fs fs' : FS) (e : PipeErr)
    (h : write_output ds summaryLines binaryLines fs = (fs', some e)) :
    fs'.clustersTxt = fs.clustersTxt ∧ fs'.assembliesTxt = fs.assembliesTxt ∧
    (fs'.cleanedBinary = fs.cleanedBinary ∨
      ∃ hits, collectMatches (findHit binaryLines) ds = some hits ∧
        fs'.cleanedBinary =
          fs.cleanedBinary ++ (binaryLines.headD "" ++ "\n") ++ joinLines hits) := by
  cases h1 : collectMatches (findHit binaryLines) ds with
  | none =>
    simp only [write_output, h1] at h
    rw [Prod.mk.injEq] at h
    obtain ⟨hfs, -⟩ := h
    exact ⟨by rw [← hfs], by rw [← hfs], Or.inl (by rw [← hfs])⟩
  | some hits =>
    cases h2 : collectMatches (fun s => findCluster s summaryLines) ds with
    | none =>
      simp only [write_output, h1, h2] at h
      rw [Prod.mk.injEq] at h
      obtain ⟨hfs, -⟩ := h
      exact ⟨by rw [← hfs], by rw [← hfs], Or.inr ⟨hits, rfl, by rw [← hfs]⟩⟩
    | some clusters =>
      simp only [write_output, h1, h2] at h
      exact absurd (congrArg Prod.snd h) (by simp)

/-- Witness for `write_output_fatal_path_file_state` at a concrete run
whose cluster lookup fails. -/
theorem write_output_fatal_path_file_state_witness :
    (⟨"", "hdrline\nrow with SCAF9\n", ""⟩ : FS).clustersTxt = FS0.clustersTxt ∧
    (⟨"", "hdrline\nrow with SCAF9\n", ""⟩ : FS).assembliesTxt = FS0.assembliesTxt ∧
    ((⟨"", "hdrline\nrow with SCAF9\n", ""⟩ : FS).cleanedBinary = FS0.cleanedBinary ∨
      ∃ hits, collectMatches (findHit ["hdrline", "row with SCAF9"]) ["SCAF9"] = some hits ∧
        (⟨"", "hdrline\nrow with SCAF9\n", ""⟩ : FS).cleanedBinary =
          FS0.cleanedBinary ++
            ((["hdrline", "row with SCAF9"] : List String).headD "" ++ "\n") ++
            joinLines hits) :=
  write_output_fatal_path_file_state ["SCAF9"] ["no blocks"] ["hdrline", "row with SCAF9"]
    FS0 ⟨"", "hdrline\nrow with SCAF9\n", ""⟩ PipeErr.clusterMatchFailed (by decide)

/-- C9 (counterexample): a fatal cluster-lookup failure aborts the
output stage AFTER the cleaned hit table has been fully written: the
run ends with an error, the cleaned hit table was changed, the cluster
list was not — the two output files are neither both written nor both
unwritten, and the output state did change on a fatal path. -/
theorem partial_output_on_cluster_failure_counterexample :
    (write_output ["S1"] ["no match here"] ["Organism,Scaffold", "orgA,S1,5"] FS0).2 =
      some PipeErr.clusterMatchFailed ∧
    (write_output ["S1"] ["no match here"] ["Organism,Scaffold", "orgA,S1,5"] FS0).1.cleanedBinary ≠
      FS0.cleanedBinary ∧
    (write_output ["S1"] ["no match here"] ["Organism,Scaffold", "orgA,S1,5"] FS0).1.clustersTxt =
      FS0.clustersTxt := by
  decide

/-- C5 (counterexample): `dereplicate_genomes` on an EMPTY assembly set
does not fail: the batch loop writes nothing to `assemblies.txt` and
the external dereplication service is still invoked, contradicting the
claimed `EmptyInputError` raised before contacting the service. -/
theorem empty_assemblies_service_invoked_counterexample :
    dereplicate_genomes [] 99 FS0 = (FS0, DerepOutcome.serviceInvoked) := by decide

/-- C5 (amended): the dereplication stage performs no emptiness check:
for every valid cutoff and any prior file state, an empty assembly list
appends nothing to `assemblies.txt` and the stage still proceeds to
invoke the external dereplication service. -/
theorem dereplicate_genomes_no_empty_check (pi_cutoff : ℚ) (fs : FS)
    (h0 : 0 < pi_cutoff) (h1 : pi_cutoff ≤ 100) :
    dereplicate_genomes [] pi_cutoff fs = (fs, DerepOutcome.serviceInvoked) := by
  simp [dereplicate_genomes, if_pos (And.intro h0 h1), batch_lines, batch_lines_go,
    joinLines, String.append_empty]

/-- Witness for `dereplicate_genomes_no_empty_check` at a concrete
cutoff and file state. -/
theorem dereplicate_genomes_no_empty_check_witness :
    dereplicate_genomes [] (199 / 2 : ℚ) ⟨"GCA_9 GCA_8\n", "x", "y"⟩ =
      (⟨"GCA_9 GCA_8\n", "x", "y"⟩, DerepOutcome.serviceInvoked) :=
  dereplicate_genomes_no_empty_check (199 / 2) ⟨"GCA_9 GCA_8\n", "x", "y"⟩
    (by norm_num) (by norm_num)

/-- C8 (counterexample): an input table with a header row, all five
required column names (7 columns in total) and ONE data row is
rejected: the row-count assertion demands strictly more than 3 data
rows, so validation fails where the claim says it accepts. -/
theorem validate_single_row_rejected_counterexample :
    validate_input_files
      (parse_csv ["Organism,Scaffold,Start,End,Score,Col6,Col7", "orgA,S1,1,2,3,a,b"])
      ["S1", "-------", "Cluster 1"] = Except.error "row count" := rfl

/-- C8 (amended): validation accepts exactly the tables with more than
6 columns, the five required column names present as a proper subset of
the columns, more than 3 data rows, and as many `"Cluster"` occurrences
in the summary as data rows.  Tables with fewer than the required
columns, missing the "Scaffold" column, or without data rows are indeed
rejected — but so is every table with 1, 2 or 3 data rows, and every
table with exactly the 5 required columns. -/
theorem validate_input_files_accepts_iff (data : Table) (summaryLines : List String) :
    validate_input_files data summaryLines = Except.ok true ↔
      (6 < data.columns.length ∧
       (∀ c ∈ required_columns, c ∈ data.columns) ∧
       (∃ c ∈ data.columns, c ∉ required_columns) ∧
       3 < data.height ∧
       cluster_occurrences summaryLines = data.height) := by
  unfold validate_input_files
  split_ifs with h1 h2 h3 h4
  · exact iff_of_true rfl ⟨h1, h2.1, h2.2, h3, h4⟩
  · exact iff_of_false (by simp) (fun hc => h4 hc.2.2.2.2)
  · exact iff_of_false (by simp) (fun hc => h3 hc.2.2.2.1)
  · exact iff_of_false (by simp) (fun hc => h2 ⟨hc.2.1, hc.2.2.1⟩)
  · exact iff_of_false (by simp) (fun hc => h1 hc.1)

/-- An input table whose "Scaffold" column sits in THIRD position while
a column named "Other" occupies the second position. -/
def c10_table : Table := parse_csv
  ["Organism,Other,Scaffold,Start,End,Score,Extra",
   "org1,x1,S1,1,2,3,e",
   "org2,x2,S2,1,2,3,e",
   "org3,x3,S3,1,2,3,e",
   "org4,x4,S4,1,2,3,e"]

/-- The same rows under fully renamed columns. -/
def c10_table_renamed : Table :=
  Table.mk ["A", "B", "C", "D", "E", "F", "G"] c10_table.rows

/-- C10: scaffold extraction selects the SECOND column by position
(index 1), not the column named "Scaffold": the result depends only on
the rows (never on the column names), and on a validated table whose
"Scaffold" column is third, extraction returns the second column's
contents rather than the "Scaffold" column's contents. -/
theorem get_scaffolds_by_position_not_by_name :
    (∀ t t' : Table, t.rows = t'.rows → get_scaffolds t = get_scaffolds t') ∧
    validate_input_files c10_table run2_summary = Except.ok true ∧
    get_scaffolds c10_table = ["x1", "x2", "x3", "x4"] ∧
    scaffold_column_by_name c10_table = ["S1", "S2", "S3", "S4"] ∧
    get_scaffolds c10_table ≠ scaffold_column_by_name c10_table := by
  refine ⟨fun t t' h => ?_, rfl, rfl, rfl, by decide⟩
  unfold get_scaffolds
  rw [h]

/-- Witness for `get_scaffolds_by_position_not_by_name`: renaming every
column leaves the extracted scaffold sequence unchanged. -/
theorem get_scaffolds_by_position_not_by_name_witness :
    get_scaffolds c10_table = get_scaffolds c10_table_renamed :=
  get_scaffolds_by_position_not_by_name.1 c10_table c10_table_renamed rfl

end Cagecleaner
